import Mathlib

/-!
Shallow embedding of `src/controller.py` (zerobot-jank): the movement
command watchdog and motor-drive controller.

Modelling conventions:
* `time.perf_counter()` readings are passed in explicitly as rational
  parameters (`nowParse` at the clock read inside `handle_command`,
  `nowEval` at the clock read inside `evaluate_movement`); monotonicity
  of the clock (`nowParse ≤ nowEval`, `0 ≤ now`) is a hypothesis where
  a claim needs it.
* Python floats are modelled as `ℚ`; every arithmetic operation the
  controller performs (integer division by 100 or 1000, addition of a
  clock reading, order comparisons) is exact on the values the protocol
  produces, so no claim here hinges on binary floating-point rounding.
* The two module-level globals `movement` and `last_movement` become the
  fields of `CtrlState`, and each stateful function returns its new
  state explicitly.
* An uncaught Python exception (ValueError from `int`, AssertionError
  from `assert`) is modelled as a distinguished `CmdResult` constructor;
  in `handle_connection` such an exception terminates the message loop
  and closes the connection.
* Calls to `update_motor_pins` (the MotorDriver effect) are returned as
  an `Option (ℚ × ℚ)`: `some (y, x)` when the hardware is signalled
  with that pair, `none` when no hardware call happens.
-/

/-- One whitespace character as stripped by the CPython `int(str)` builtin
(ASCII space, tab, newline, carriage return, vertical tab, form feed). -/
def isPySpace (c : Char) : Bool :=
  c = ' ' || c = '\t' || c = '\n' || c = '\r' || c = '\x0b' || c = '\x0c'

/-- Accumulate the value of a run of ASCII decimal digits; `none` as soon
as a non-digit character is met. -/
def digitsVal : ℕ → List Char → Option ℕ
  | acc, [] => some acc
  | acc, c :: cs =>
      if c.isDigit then digitsVal (10 * acc + (c.toNat - 48)) cs else none

/-- Model of the CPython `int(str)` builtin on a field of the instruction: strip
surrounding whitespace, allow one optional sign, then require a nonempty
run of ASCII decimal digits; anything else raises ValueError (`none`).
(The CPython builtin additionally accepts underscores between digits and non-ASCII
decimal digits; no instruction considered here contains those.) -/
def pyInt (cs : List Char) : Option ℤ :=
  let t := ((cs.dropWhile isPySpace).reverse.dropWhile isPySpace).reverse
  match t with
  | [] => none
  | '-' :: rest =>
      if rest = [] then none else (digitsVal 0 rest).map (fun n => -(n : ℤ))
  | '+' :: rest =>
      if rest = [] then none else (digitsVal 0 rest).map (fun n => (n : ℤ))
  | rest => (digitsVal 0 rest).map (fun n => (n : ℤ))

/-- Model of the Python `str.split` method with the explicit separator ":": splitting the
empty string gives `[""]`, and adjacent separators yield empty fields. -/
def splitOnColon : List Char → List (List Char)
  | [] => [[]]
  | c :: cs =>
      if c = ':' then [] :: splitOnColon cs
      else
        match splitOnColon cs with
        | [] => [[c]]
        | f :: rest => (c :: f) :: rest

/-- The `movement` global when not `None`: a pending movement command
`(timeout, y, x)` — expiry time on the monotonic clock, forward/backward
strength `y`, right/left strength `x` (controller.py line 14). -/
structure Movement where
  timeout : ℚ
  y : ℚ
  x : ℚ
deriving DecidableEq, Repr

/-- The controller module-level state: the pending `movement` command
(or `none`) and `last_movement`, the pair last sent to the motors
(controller.py lines 14-16). -/
structure CtrlState where
  movement : Option Movement
  last_movement : ℚ × ℚ
deriving DecidableEq, Repr

/-- The state at process start: no pending command, motors stopped. -/
def ctrlInit : CtrlState := { movement := none, last_movement := (0, 0) }

/-- Outcome of one `handle_command` call. `ok` — `set_movement` ran to
completion; `unknownCommand` — the `case _` branch printed "Unknown
command" and returned; `valueError` — `int()` raised ValueError;
`assertionFailed` — an `assert` in `set_movement` raised AssertionError.
The two exception outcomes propagate out of `handle_command`, terminate
the `async for` loop in `handle_connection`, and close the connection. -/
inductive CmdResult where
  | ok
  | unknownCommand
  | valueError
  | assertionFailed
deriving DecidableEq, Repr

/-- The number of entries the `actions` list receives in
`evaluate_movement` (controller.py lines 107-111); the list itself only
selects the log message, so the entry strings are not modelled. -/
def movementActionCount (y x : ℚ) : ℕ :=
  (if y > 0 then 1 else if y < 0 then 1 else 0) +
    (if x > 0 then 1 else if x < 0 then 1 else 0)

/-- Model of `evaluate_movement` (controller.py lines 95-125) at clock reading
`now`: returns the new state and the pair passed to `update_motor_pins`,
if any. -/
def evaluate_movement (now : ℚ) (s : CtrlState) : CtrlState × Option (ℚ × ℚ) :=
  match s.movement with
  | none => (s, none)
  | some m =>
      let timed_out : Bool := now ≥ m.timeout
      let y : ℚ := if timed_out then 0 else m.y
      let x : ℚ := if timed_out then 0 else m.x
      let call : Option (ℚ × ℚ) :=
        if s.last_movement = (y, x) then
          none  -- "No change in movement"
        else if movementActionCount y x ≠ 0 then
          some (y, x)  -- prints "Moving ..." then update_motor_pins(y, x)
        else
          some (y, x)  -- prints "Stopped!" then update_motor_pins(y, x)
      ({ movement := if timed_out then none else s.movement
         last_movement := (y, x) },
       call)

/-- Model of `set_movement` (controller.py lines 86-92): assert the invariants,
install the command into the `movement` global, then immediately run
`evaluate_movement`. A failed assert raises before `movement` is
assigned, leaving the state untouched. -/
def set_movement (nowEval : ℚ) (timeout y x : ℚ) (s : CtrlState) :
    CmdResult × CtrlState × Option (ℚ × ℚ) :=
  if ¬ timeout ≥ 0 then (.assertionFailed, s, none)
  else if ¬ (-1 ≤ y ∧ y ≤ 1) then (.assertionFailed, s, none)
  else if ¬ (-1 ≤ x ∧ x ≤ 1) then (.assertionFailed, s, none)
  else
    let p := evaluate_movement nowEval { s with movement := some ⟨timeout, y, x⟩ }
    (.ok, p)

/-- Model of `handle_command` (controller.py lines 74-83): split on ":", match
`["move", duration, y, x]`, convert the three fields with `int` (a
ValueError propagates before any state change), and call `set_movement`
with `timeout = nowParse + duration/1000`, `y/100`, `x/100`. Every other
shape prints "Unknown command" and changes nothing. -/
def handle_command (nowParse nowEval : ℚ) (command : String) (s : CtrlState) :
    CmdResult × CtrlState × Option (ℚ × ℚ) :=
  match splitOnColon command.toList with
  | [dir, duration, y, x] =>
      if dir = ("move".toList) then
        match pyInt duration with
        | none => (.valueError, s, none)
        | some d =>
            let timeout := nowParse + (d : ℚ) / 1000
            match pyInt y with
            | none => (.valueError, s, none)
            | some yi =>
                match pyInt x with
                | none => (.valueError, s, none)
                | some xi =>
                    set_movement nowEval timeout ((yi : ℚ) / 100) ((xi : ℚ) / 100) s
      else (.unknownCommand, s, none)
  | _ => (.unknownCommand, s, none)

/-- The GPIO side effects of one `update_motor_pins` call: the duty
cycles given to `M1.ChangeDutyCycle` / `M2.ChangeDutyCycle` (`none` when
the branch makes no such call) and the levels written to output pins
7, 11, 13, 15. -/
structure MotorPinActions where
  dutyM1 : Option ℚ
  dutyM2 : Option ℚ
  pin7 : Bool
  pin11 : Bool
  pin13 : Bool
  pin15 : Bool
deriving DecidableEq, Repr

/-- Model of `update_motor_pins` (controller.py lines 128-164): a five-way sign
dispatch — forwards, backwards, right, left, stop. The final branch
does not touch the PWM duty cycles. -/
def update_motor_pins (y x : ℚ) : MotorPinActions :=
  if y > 0 then
    ⟨some 25, some 25, false, true, true, false⟩
  else if y < 0 then
    ⟨some 30, some 30, true, false, false, true⟩
  else if x > 0 then
    ⟨some 20, some 20, true, false, true, false⟩
  else if x < 0 then
    ⟨some 20, some 20, false, true, false, true⟩
  else
    ⟨none, none, false, false, false, false⟩

/-! ## Helper lemmas -/

/-- An integer percentage in [-100, 100] normalizes to a strength in [-1, 1]. -/
theorem pct_bounds (n : ℤ) (h1 : -100 ≤ n) (h2 : n ≤ 100) :
    -1 ≤ (n : ℚ) / 100 ∧ (n : ℚ) / 100 ≤ 1 := by
  constructor
  · rw [le_div_iff₀ (by norm_num : (0 : ℚ) < 100)]
    have : (-100 : ℚ) ≤ (n : ℚ) := by exact_mod_cast h1
    linarith
  · rw [div_le_one (by norm_num : (0 : ℚ) < 100)]
    exact_mod_cast h2

/-- With no pending command the evaluator is a no-op: no state change and
no motor call (controller.py lines 98-99). -/
theorem evaluate_none (now : ℚ) (s : CtrlState) (h : s.movement = none) :
    evaluate_movement now s = (s, none) := by
  simp [evaluate_movement, h]

/-- An expired pending command is consumed in one evaluation: the
effective pair is forced to (0, 0), recorded into `last_movement`, the
command is cleared, and the motors are signalled (0, 0) unless they were
already there. -/
theorem evaluate_expired (now : ℚ) (s : CtrlState) (m : Movement)
    (hm : s.movement = some m) (h : m.timeout ≤ now) :
    evaluate_movement now s =
      ({ movement := none, last_movement := (0, 0) },
       if s.last_movement = ((0 : ℚ), (0 : ℚ)) then none else some (0, 0)) := by
  simp [evaluate_movement, hm, h, movementActionCount]

/-- An unexpired pending command is applied by one evaluation: its pair
is recorded into `last_movement`, the command stays pending, and the
motors are signalled with the pair unless they were already there. -/
theorem evaluate_fresh (now : ℚ) (s : CtrlState) (m : Movement)
    (hm : s.movement = some m) (h : now < m.timeout) :
    evaluate_movement now s =
      ({ movement := some m, last_movement := (m.y, m.x) },
       if s.last_movement = (m.y, m.x) then none else some (m.y, m.x)) := by
  simp [evaluate_movement, hm, not_le.mpr h, le_of_lt h]

/-- A well-formed `move` instruction whose fields all convert with `int`,
whose percentages are within [-100, 100], and whose computed timeout is
nonnegative, passes every assert: `handle_command` installs the parsed
request and returns exactly the result of the immediate evaluation. -/
theorem handle_move_spec (nowParse nowEval : ℚ) (cmd : String)
    (ds ys xs : List Char) (d yv xv : ℤ) (s : CtrlState)
    (hsplit : splitOnColon cmd.toList = [("move".toList), ds, ys, xs])
    (hd : pyInt ds = some d) (hy : pyInt ys = some yv) (hx : pyInt xs = some xv)
    (hyr1 : -100 ≤ yv) (hyr2 : yv ≤ 100) (hxr1 : -100 ≤ xv) (hxr2 : xv ≤ 100)
    (ht : 0 ≤ nowParse + (d : ℚ) / 1000) :
    handle_command nowParse nowEval cmd s =
      (.ok, evaluate_movement nowEval
        { s with movement := some ⟨nowParse + (d : ℚ) / 1000, (yv : ℚ) / 100, (xv : ℚ) / 100⟩ }) := by
  obtain ⟨hy1, hy2⟩ := pct_bounds yv hyr1 hyr2
  obtain ⟨hx1, hx2⟩ := pct_bounds xv hxr1 hxr2
  simp only [handle_command, hsplit, hd, hy, hx]
  rw [if_pos trivial, set_movement, if_neg (not_not_intro ht), if_neg (not_not_intro ⟨hy1, hy2⟩),
    if_neg (not_not_intro ⟨hx1, hx2⟩)]

/-! ## Claims -/

/-- Claim C1: for every pending MovementRequest, once the monotonic clock
satisfies `now ≥ expires_at`, one call to the evaluator forces
AppliedMovement (`last_movement`) to (0, 0) and clears the pending
request in that same call, and every further evaluation with no new
command changes nothing: no motor call and no state change. -/
theorem claim1_expiry_determinism (now : ℚ) (s : CtrlState) (m : Movement)
    (hm : s.movement = some m) (hexp : m.timeout ≤ now) :
    (evaluate_movement now s).1.last_movement = (0, 0) ∧
    (evaluate_movement now s).1.movement = none ∧
    ∀ now2 : ℚ, evaluate_movement now2 (evaluate_movement now s).1 =
      ((evaluate_movement now s).1, none) := by
  rw [evaluate_expired now s m hm hexp]
  exact ⟨rfl, rfl, fun now2 => evaluate_none now2 _ rfl⟩

/-- Concrete run of C1: a request with `expires_at = 1` evaluated at
`now = 2` is forced to stop and consumed; a further evaluation at
`now = 3` is a no-op. -/
theorem claim1_expiry_determinism_witness :
    (evaluate_movement 2 ⟨some ⟨1, 1/2, 0⟩, (1/2, 0)⟩).1.last_movement = (0, 0) ∧
    (evaluate_movement 2 ⟨some ⟨1, 1/2, 0⟩, (1/2, 0)⟩).1.movement = none ∧
    evaluate_movement 3 (evaluate_movement 2 ⟨some ⟨1, 1/2, 0⟩, (1/2, 0)⟩).1 =
      ((evaluate_movement 2 ⟨some ⟨1, 1/2, 0⟩, (1/2, 0)⟩).1, none) :=
  ⟨(claim1_expiry_determinism 2 ⟨some ⟨1, 1/2, 0⟩, (1/2, 0)⟩ ⟨1, 1/2, 0⟩ rfl (by norm_num)).1,
   (claim1_expiry_determinism 2 ⟨some ⟨1, 1/2, 0⟩, (1/2, 0)⟩ ⟨1, 1/2, 0⟩ rfl (by norm_num)).2.1,
   (claim1_expiry_determinism 2 ⟨some ⟨1, 1/2, 0⟩, (1/2, 0)⟩ ⟨1, 1/2, 0⟩ rfl (by norm_num)).2.2 3⟩

/-- Claim C6: running the evaluator twice in succession with no new
command installed in between, on a monotonic clock, and with the pending
request (if any) not expiring strictly between the two runs, makes no
hardware call and no state change on the second run — so the pair of
runs issues at most one MotorDriver invocation. -/
theorem claim6_debounce_idempotence (now1 now2 : ℚ) (s : CtrlState) (h12 : now1 ≤ now2)
    (h : ∀ m, s.movement = some m → now2 < m.timeout ∨ m.timeout ≤ now1) :
    evaluate_movement now2 (evaluate_movement now1 s).1 =
      ((evaluate_movement now1 s).1, none) := by
  cases hm : s.movement with
  | none =>
      rw [evaluate_none now1 s hm]
      exact evaluate_none now2 s hm
  | some m =>
      rcases h m hm with hfresh | hexp
      · rw [evaluate_fresh now1 s m hm (lt_of_le_of_lt h12 hfresh)]
        rw [evaluate_fresh now2 _ m rfl hfresh]
        simp
      · rw [evaluate_expired now1 s m hm hexp]
        exact evaluate_none now2 _ rfl

/-- Concrete run of C6: a request expiring at 1 is evaluated at 0 and
again at 1/4; the second run changes nothing and makes no motor call. -/
theorem claim6_debounce_idempotence_witness :
    evaluate_movement (1/4) (evaluate_movement 0 ⟨some ⟨1, 1/2, 0⟩, (0, 0)⟩).1 =
      ((evaluate_movement 0 ⟨some ⟨1, 1/2, 0⟩, (0, 0)⟩).1, none) :=
  claim6_debounce_idempotence 0 (1/4) ⟨some ⟨1, 1/2, 0⟩, (0, 0)⟩ (by norm_num)
    (by intro m hm; injection hm with h; subst h; left; norm_num)

/-- Claim C10: `update_motor_pins` is magnitude-insensitive and
axis-prioritized — its pin and duty-cycle actions depend only on the
sign of the forward strength and, when the forward strength is zero, the
sign of the lateral strength; in particular the lateral argument is
ignored whenever the forward strength is nonzero. -/
theorem claim10_sign_only_dispatch (y x y2 x2 : ℚ)
    (hpos : y > 0 ↔ y2 > 0) (hneg : y < 0 ↔ y2 < 0)
    (hlat : y = 0 → ((x > 0 ↔ x2 > 0) ∧ (x < 0 ↔ x2 < 0))) :
    update_motor_pins y x = update_motor_pins y2 x2 := by
  by_cases h1 : y > 0
  · rw [update_motor_pins, update_motor_pins, if_pos h1, if_pos (hpos.mp h1)]
  · have h1' : ¬ y2 > 0 := fun hh => h1 (hpos.mpr hh)
    by_cases h2 : y < 0
    · rw [update_motor_pins, update_motor_pins, if_neg h1, if_neg h1',
        if_pos h2, if_pos (hneg.mp h2)]
    · have h2' : ¬ y2 < 0 := fun hh => h2 (hneg.mpr hh)
      obtain ⟨hxp, hxn⟩ := hlat (le_antisymm (not_lt.mp h1) (not_lt.mp h2))
      by_cases h3 : x > 0
      · rw [update_motor_pins, update_motor_pins, if_neg h1, if_neg h1', if_neg h2, if_neg h2',
          if_pos h3, if_pos (hxp.mp h3)]
      · have h3' : ¬ x2 > 0 := fun hh => h3 (hxp.mpr hh)
        by_cases h4 : x < 0
        · rw [update_motor_pins, update_motor_pins, if_neg h1, if_neg h1', if_neg h2, if_neg h2',
            if_neg h3, if_neg h3', if_pos h4, if_pos (hxn.mp h4)]
        · have h4' : ¬ x2 < 0 := fun hh => h4 (hxn.mpr hh)
          rw [update_motor_pins, update_motor_pins, if_neg h1, if_neg h1', if_neg h2, if_neg h2',
            if_neg h3, if_neg h3', if_neg h4, if_neg h4']

/-- Concrete run of C10: a half-strength forward command with hard-left
lateral produces the same pin actions as a triple-strength forward
command with a different lateral — only the sign of `y` matters. -/
theorem claim10_sign_only_dispatch_witness :
    update_motor_pins (1/2) (-7) = update_motor_pins 3 5 :=
  claim10_sign_only_dispatch (1/2) (-7) 3 5 (by norm_num) (by norm_num)
    (by intro h; norm_num at h)

/-- Claim C2: a valid `move` instruction (all three fields convert with
`int`, percentages within [-100, 100]) whose computed `expires_at` is
still in the future at evaluation time is accepted, and the single
immediate evaluation leaves AppliedMovement equal to the parsed
normalized pair (forward/100, lateral/100), each component in [-1, 1]. -/
theorem claim2_valid_command_applied (nowParse nowEval : ℚ) (cmd : String)
    (ds ys xs : List Char) (d yv xv : ℤ) (s : CtrlState)
    (hsplit : splitOnColon cmd.toList = [("move".toList), ds, ys, xs])
    (hd : pyInt ds = some d) (hy : pyInt ys = some yv) (hx : pyInt xs = some xv)
    (hyr1 : -100 ≤ yv) (hyr2 : yv ≤ 100) (hxr1 : -100 ≤ xv) (hxr2 : xv ≤ 100)
    (hnow : 0 ≤ nowEval) (hfut : nowEval < nowParse + (d : ℚ) / 1000) :
    (handle_command nowParse nowEval cmd s).1 = .ok ∧
    (handle_command nowParse nowEval cmd s).2.1.last_movement =
      ((yv : ℚ) / 100, (xv : ℚ) / 100) ∧
    -1 ≤ (yv : ℚ) / 100 ∧ (yv : ℚ) / 100 ≤ 1 ∧
    -1 ≤ (xv : ℚ) / 100 ∧ (xv : ℚ) / 100 ≤ 1 := by
  obtain ⟨hy1, hy2⟩ := pct_bounds yv hyr1 hyr2
  obtain ⟨hx1, hx2⟩ := pct_bounds xv hxr1 hxr2
  rw [handle_move_spec nowParse nowEval cmd ds ys xs d yv xv s hsplit hd hy hx
    hyr1 hyr2 hxr1 hxr2 (le_trans hnow hfut.le)]
  rw [evaluate_fresh nowEval _ ⟨nowParse + (d : ℚ) / 1000, (yv : ℚ) / 100, (xv : ℚ) / 100⟩
    rfl hfut]
  exact ⟨rfl, rfl, hy1, hy2, hx1, hx2⟩

/-- Concrete run of C2: "move:1000:50:0" parsed at time 0 and evaluated
at time 0 leaves AppliedMovement at (50/100, 0/100) = (0.5, 0). -/
theorem claim2_valid_command_applied_witness :
    (handle_command 0 0 "move:1000:50:0" ctrlInit).1 = .ok ∧
    (handle_command 0 0 "move:1000:50:0" ctrlInit).2.1.last_movement =
      (((50 : ℤ) : ℚ) / 100, ((0 : ℤ) : ℚ) / 100) ∧
    -1 ≤ ((50 : ℤ) : ℚ) / 100 ∧ ((50 : ℤ) : ℚ) / 100 ≤ 1 ∧
    -1 ≤ ((0 : ℤ) : ℚ) / 100 ∧ ((0 : ℤ) : ℚ) / 100 ≤ 1 :=
  claim2_valid_command_applied 0 0 "move:1000:50:0" ("1000".toList) ("50".toList) ("0".toList)
    1000 50 0 ctrlInit (by decide) (by decide) (by decide) (by decide)
    (by decide) (by decide) (by decide) (by decide) (by norm_num) (by norm_num)

/-- Claim C8: every successfully parsed instruction is installed into
CommandState and one evaluation runs inside the same `handle_command`
call: the outcome of the call is exactly `evaluate_movement` applied to the
state with the new request installed. -/
theorem claim8_install_then_evaluate (nowParse nowEval : ℚ) (cmd : String)
    (ds ys xs : List Char) (d yv xv : ℤ) (s : CtrlState)
    (hsplit : splitOnColon cmd.toList = [("move".toList), ds, ys, xs])
    (hd : pyInt ds = some d) (hy : pyInt ys = some yv) (hx : pyInt xs = some xv)
    (hyr1 : -100 ≤ yv) (hyr2 : yv ≤ 100) (hxr1 : -100 ≤ xv) (hxr2 : xv ≤ 100)
    (ht : 0 ≤ nowParse + (d : ℚ) / 1000) :
    handle_command nowParse nowEval cmd s =
      (.ok, evaluate_movement nowEval
        { s with movement := some ⟨nowParse + (d : ℚ) / 1000, (yv : ℚ) / 100, (xv : ℚ) / 100⟩ }) :=
  handle_move_spec nowParse nowEval cmd ds ys xs d yv xv s hsplit hd hy hx
    hyr1 hyr2 hxr1 hxr2 ht

/-- Concrete run of C8: "move:1000:50:0" accepted at time 0 equals
install-then-evaluate in the same call. -/
theorem claim8_install_then_evaluate_witness :
    handle_command 0 0 "move:1000:50:0" ctrlInit =
      (.ok, evaluate_movement 0
        { ctrlInit with movement := some ⟨0 + ((1000 : ℤ) : ℚ) / 1000, ((50 : ℤ) : ℚ) / 100, ((0 : ℤ) : ℚ) / 100⟩ }) :=
  claim8_install_then_evaluate 0 0 "move:1000:50:0" ("1000".toList) ("50".toList) ("0".toList)
    1000 50 0 ctrlInit (by decide) (by decide) (by decide) (by decide)
    (by decide) (by decide) (by decide) (by decide) (by norm_num)

/-- Claim C9: a valid command with duration 0 is accepted, and on a
non-decreasing monotonic clock its immediate evaluation already sees it
as timed out: the stored pair is never driven, AppliedMovement becomes
(0, 0) (with a motor call only if the motors were not already stopped),
and the request is cleared in that same call. -/
theorem claim9_zero_duration_is_stop (nowParse nowEval : ℚ) (cmd : String)
    (ds ys xs : List Char) (yv xv : ℤ) (s : CtrlState)
    (hsplit : splitOnColon cmd.toList = [("move".toList), ds, ys, xs])
    (hd : pyInt ds = some 0)
    (hy : pyInt ys = some yv) (hx : pyInt xs = some xv)
    (hyr1 : -100 ≤ yv) (hyr2 : yv ≤ 100) (hxr1 : -100 ≤ xv) (hxr2 : xv ≤ 100)
    (h0 : 0 ≤ nowParse) (hmono : nowParse ≤ nowEval) :
    (handle_command nowParse nowEval cmd s).1 = .ok ∧
    (handle_command nowParse nowEval cmd s).2.1 =
      { movement := none, last_movement := (0, 0) } ∧
    (handle_command nowParse nowEval cmd s).2.2 =
      (if s.last_movement = ((0 : ℚ), (0 : ℚ)) then none else some (0, 0)) := by
  rw [handle_move_spec nowParse nowEval cmd ds ys xs 0 yv xv s hsplit hd hy hx
    hyr1 hyr2 hxr1 hxr2 (by simpa using h0)]
  rw [evaluate_expired nowEval _ ⟨nowParse + ((0 : ℤ) : ℚ) / 1000, (yv : ℚ) / 100, (xv : ℚ) / 100⟩
    rfl (by simpa using hmono)]
  exact ⟨rfl, rfl, rfl⟩

/-- Concrete run of C9: "move:0:50:50" at time 1 is accepted, acts as a
stop, and is consumed; with the motors already stopped no call is made. -/
theorem claim9_zero_duration_is_stop_witness :
    (handle_command 1 1 "move:0:50:50" ctrlInit).1 = .ok ∧
    (handle_command 1 1 "move:0:50:50" ctrlInit).2.1 =
      { movement := none, last_movement := (0, 0) } ∧
    (handle_command 1 1 "move:0:50:50" ctrlInit).2.2 =
      (if ctrlInit.last_movement = ((0 : ℚ), (0 : ℚ)) then none else some (0, 0)) :=
  claim9_zero_duration_is_stop 1 1 "move:0:50:50" ("0".toList) ("50".toList) ("50".toList)
    50 50 ctrlInit (by decide) (by decide) (by decide) (by decide)
    (by decide) (by decide) (by decide) (by decide) (by norm_num) (by norm_num)

/-- Every `handle_command` outcome other than `ok` leaves the state
untouched and makes no motor call: each rejection or exception path
returns before `movement` is assigned. -/
theorem handle_result_cases (nowParse nowEval : ℚ) (cmd : String) (s : CtrlState) :
    (handle_command nowParse nowEval cmd s).1 = .ok ∨
    (handle_command nowParse nowEval cmd s).2 = (s, none) := by
  unfold handle_command set_movement
  dsimp only
  repeat' split
  all_goals first | (left; rfl) | (right; rfl)

/-- A percentage at least 101 normalizes outside [-1, 1]. -/
theorem pct_out_high (n : ℤ) (h : 101 ≤ n) :
    ¬(-1 ≤ (n : ℚ) / 100 ∧ (n : ℚ) / 100 ≤ 1) := by
  rintro ⟨-, h2⟩
  rw [div_le_one (by norm_num : (0 : ℚ) < 100)] at h2
  have : (101 : ℚ) ≤ (n : ℚ) := by exact_mod_cast h
  linarith

/-- A percentage at most -101 normalizes outside [-1, 1]. -/
theorem pct_out_low (n : ℤ) (h : n ≤ -101) :
    ¬(-1 ≤ (n : ℚ) / 100 ∧ (n : ℚ) / 100 ≤ 1) := by
  rintro ⟨h1, -⟩
  rw [le_div_iff₀ (by norm_num : (0 : ℚ) < 100)] at h1
  have : (n : ℚ) ≤ (-101 : ℚ) := by exact_mod_cast h
  linarith

/-- Counterexample to claim C3 as stated: the well-shaped instruction
"move:abc:0:0" has a non-numeric duration field, and `handle_command`
does not produce the graceful unknown-command rejection — `int("abc")`
raises ValueError, which propagates out of the handler and terminates
the connection loop. -/
theorem claim3_counterexample :
    (handle_command 0 0 "move:abc:0:0" ctrlInit).1 = .valueError ∧
    (handle_command 0 0 "move:abc:0:0" ctrlInit).1 ≠ .unknownCommand := by
  decide

/-- Claim C3 (amended): any input that is not a colon-split 4-field list
headed by "move" is gracefully rejected ("Unknown command" printed, no
exception); a well-shaped move instruction with a non-`int` field raises
ValueError, and one with an out-of-range percentage raises
AssertionError, both of which propagate out of the handler and close the
connection. In every non-accepted case — graceful or exceptional — no
MovementRequest is installed, CommandState and AppliedMovement are
unchanged, and no motor call is made. -/
theorem claim3_invalid_inputs (nowParse nowEval : ℚ) (cmd : String) (s : CtrlState) :
    ((handle_command nowParse nowEval cmd s).1 ≠ .ok →
      (handle_command nowParse nowEval cmd s).2 = (s, none)) ∧
    (∀ l, splitOnColon cmd.toList = l → (l.length ≠ 4 ∨ l.headI ≠ "move".toList) →
      (handle_command nowParse nowEval cmd s).1 = .unknownCommand) ∧
    (∀ ds ys xs, splitOnColon cmd.toList = [("move".toList), ds, ys, xs] →
      pyInt ds = none ∨ pyInt ys = none ∨ pyInt xs = none →
      (handle_command nowParse nowEval cmd s).1 = .valueError) ∧
    (∀ ds ys xs d yv xv, splitOnColon cmd.toList = [("move".toList), ds, ys, xs] →
      pyInt ds = some d → pyInt ys = some yv → pyInt xs = some xv →
      (101 ≤ yv ∨ yv ≤ -101 ∨ 101 ≤ xv ∨ xv ≤ -101) →
      (handle_command nowParse nowEval cmd s).1 = .assertionFailed) := by
  refine ⟨?_, ?_, ?_, ?_⟩
  · intro hne
    rcases handle_result_cases nowParse nowEval cmd s with h | h
    · exact absurd h hne
    · exact h
  · intro l hl hshape
    subst hl
    unfold handle_command
    split
    · rename_i dir duration y x heq
      rw [heq] at hshape
      rcases hshape with h4 | hdir
      · simp at h4
      · rw [if_neg (by simpa using hdir)]
    · rfl
  · intro ds ys xs heq hnone
    simp only [handle_command, heq]
    rw [if_pos trivial]
    rcases hpd : pyInt ds with - | d
    · rfl
    · rcases hnone with h | h | h
      · exact absurd hpd (by rw [h]; exact fun hc => Option.noConfusion hc)
      · rw [h]
      · rw [h]
        rcases hpy : pyInt ys with - | yv
        · rfl
        · rfl
  · intro ds ys xs d yv xv heq hpd hpy hpx hout
    simp only [handle_command, heq, hpd, hpy, hpx]
    rw [if_pos trivial, set_movement]
    by_cases h0 : ¬ (nowParse + (d : ℚ) / 1000) ≥ 0
    · rw [if_pos h0]
    · rw [if_neg h0]
      rcases hout with h | h | h | h
      · rw [if_pos (pct_out_high yv h)]
      · rw [if_pos (pct_out_low yv h)]
      · by_cases hyin : ¬(-1 ≤ (yv : ℚ) / 100 ∧ (yv : ℚ) / 100 ≤ 1)
        · rw [if_pos hyin]
        · rw [if_neg hyin, if_pos (pct_out_high xv h)]
      · by_cases hyin : ¬(-1 ≤ (yv : ℚ) / 100 ∧ (yv : ℚ) / 100 ≤ 1)
        · rw [if_pos hyin]
        · rw [if_neg hyin, if_pos (pct_out_low xv h)]

/-- Concrete runs of C3 (amended): a non-numeric field leaves the state
unchanged (after a ValueError); a non-move directive is gracefully
rejected; an out-of-range percentage ends in AssertionError. -/
theorem claim3_invalid_inputs_witness :
    (handle_command 0 0 "move:abc:0:0" ctrlInit).2 = (ctrlInit, none) ∧
    (handle_command 0 0 "stop" ctrlInit).1 = .unknownCommand ∧
    (handle_command 0 0 "move:0:101:0" ctrlInit).1 = .assertionFailed :=
  ⟨(claim3_invalid_inputs 0 0 "move:abc:0:0" ctrlInit).1 (by decide),
   (claim3_invalid_inputs 0 0 "stop" ctrlInit).2.1 [("stop".toList)] (by decide)
     (Or.inl (by decide)),
   (claim3_invalid_inputs 0 0 "move:0:101:0" ctrlInit).2.2.2 ("0".toList) ("101".toList) ("0".toList)
     0 101 0 (by decide) (by decide) (by decide) (by decide) (Or.inl (by decide))⟩

/-- Counterexample to claim C4 as stated: "move:-5:0:0" received at
monotonic time 1 is NOT rejected. The computed timeout 1 - 5/1000
passes `assert timeout >= 0`, the request is installed, and the
immediate evaluation sees it already expired: AppliedMovement changes
from (1/2, 0) to (0, 0) and the motors are called with (0, 0). -/
theorem claim4_counterexample :
    handle_command 1 1 "move:-5:0:0" { movement := none, last_movement := (1/2, 0) } =
      (.ok, { movement := none, last_movement := (0, 0) }, some (0, 0)) := by
  rw [handle_move_spec 1 1 "move:-5:0:0" ("-5".toList) ("0".toList) ("0".toList) (-5) 0 0
    { movement := none, last_movement := (1/2, 0) } (by decide) (by decide) (by decide)
    (by decide) (by decide) (by decide) (by decide) (by decide) (by norm_num)]
  rw [evaluate_expired 1 _ ⟨1 + ((-5 : ℤ) : ℚ) / 1000, ((0 : ℤ) : ℚ) / 100, ((0 : ℤ) : ℚ) / 100⟩
    rfl (by norm_num)]
  norm_num [Prod.ext_iff]

/-- Claim C4 (amended): a `move` command with a negative duration is not
rejected, provided the computed timeout `nowParse + duration/1000` is
still nonnegative (as it is whenever the process has run longer than
|duration|): the request is installed with an already-past expiry, and
the immediate evaluation on a monotonic clock forces AppliedMovement to
(0, 0), makes a motor call if the motors were not already stopped, and
clears the request — the command acts as a stop, not a no-op. -/
theorem claim4_negative_duration (nowParse nowEval : ℚ) (cmd : String)
    (ds ys xs : List Char) (d yv xv : ℤ) (s : CtrlState)
    (hsplit : splitOnColon cmd.toList = [("move".toList), ds, ys, xs])
    (hd : pyInt ds = some d) (hdneg : d < 0)
    (hy : pyInt ys = some yv) (hx : pyInt xs = some xv)
    (hyr1 : -100 ≤ yv) (hyr2 : yv ≤ 100) (hxr1 : -100 ≤ xv) (hxr2 : xv ≤ 100)
    (ht : 0 ≤ nowParse + (d : ℚ) / 1000) (hmono : nowParse ≤ nowEval) :
    (handle_command nowParse nowEval cmd s).1 = .ok ∧
    (handle_command nowParse nowEval cmd s).2.1 =
      { movement := none, last_movement := (0, 0) } ∧
    (handle_command nowParse nowEval cmd s).2.2 =
      (if s.last_movement = ((0 : ℚ), (0 : ℚ)) then none else some (0, 0)) := by
  rw [handle_move_spec nowParse nowEval cmd ds ys xs d yv xv s hsplit hd hy hx
    hyr1 hyr2 hxr1 hxr2 ht]
  have hexp : nowParse + (d : ℚ) / 1000 ≤ nowEval := by
    have hdq : (d : ℚ) < 0 := by exact_mod_cast hdneg
    have : (d : ℚ) / 1000 < 0 := div_neg_of_neg_of_pos hdq (by norm_num)
    linarith
  rw [evaluate_expired nowEval _ ⟨nowParse + (d : ℚ) / 1000, (yv : ℚ) / 100, (xv : ℚ) / 100⟩
    rfl hexp]
  exact ⟨rfl, rfl, rfl⟩

/-- Concrete run of C4 (amended): "move:-5:0:0" at time 1 is accepted
and acts as an immediate stop. -/
theorem claim4_negative_duration_witness :
    (handle_command 1 1 "move:-5:0:0" ctrlInit).1 = .ok ∧
    (handle_command 1 1 "move:-5:0:0" ctrlInit).2.1 =
      { movement := none, last_movement := (0, 0) } ∧
    (handle_command 1 1 "move:-5:0:0" ctrlInit).2.2 =
      (if ctrlInit.last_movement = ((0 : ℚ), (0 : ℚ)) then none else some (0, 0)) :=
  claim4_negative_duration 1 1 "move:-5:0:0" ("-5".toList) ("0".toList) ("0".toList)
    (-5) 0 0 ctrlInit (by decide) (by decide) (by decide) (by decide) (by decide)
    (by decide) (by decide) (by decide) (by decide) (by norm_num) (by norm_num)

/-- Counterexample to claim C5 as stated: with "move:500:0:-100" at time
0 followed by "move:500:0:100" at time 1/100 (10 ms later), the driver
does NOT see at most one transition to the pair of B only — command A is
evaluated immediately inside its own `handle_command` call, so the
motors are first driven with the pair of A, (0, -1), and then with the
pair of B, (0, 1): two transitions, and the pair of A is driven. -/
theorem claim5_counterexample :
    (handle_command 0 0 "move:500:0:-100" ctrlInit).2.2 = some (0, -1) ∧
    (handle_command (1/100) (1/100) "move:500:0:100"
        (handle_command 0 0 "move:500:0:-100" ctrlInit).2.1).2.2 = some (0, 1) := by
  have hs1 : handle_command 0 0 "move:500:0:-100" ctrlInit =
      (.ok, { movement := some ⟨1/2, 0, -1⟩, last_movement := (0, -1) }, some (0, -1)) := by
    rw [handle_move_spec 0 0 "move:500:0:-100" ("500".toList) ("0".toList) ("-100".toList)
      500 0 (-100) ctrlInit (by decide) (by decide) (by decide) (by decide) (by decide)
      (by decide) (by decide) (by decide) (by norm_num)]
    rw [evaluate_fresh 0 _ ⟨0 + ((500 : ℤ) : ℚ) / 1000, ((0 : ℤ) : ℚ) / 100, ((-100 : ℤ) : ℚ) / 100⟩
      rfl (by norm_num)]
    norm_num [ctrlInit, Prod.ext_iff, Movement.mk.injEq, CtrlState.mk.injEq]
  have hs2 : handle_command (1/100) (1/100) "move:500:0:100"
        ({ movement := some ⟨1/2, 0, -1⟩, last_movement := (0, -1) } : CtrlState) =
      (.ok, { movement := some ⟨51/100, 0, 1⟩, last_movement := (0, 1) }, some (0, 1)) := by
    rw [handle_move_spec (1/100) (1/100) "move:500:0:100" ("500".toList) ("0".toList) ("100".toList)
      500 0 100 _ (by decide) (by decide) (by decide) (by decide) (by decide)
      (by decide) (by decide) (by decide) (by norm_num)]
    rw [evaluate_fresh (1/100) _
      ⟨1/100 + ((500 : ℤ) : ℚ) / 1000, ((0 : ℤ) : ℚ) / 100, ((100 : ℤ) : ℚ) / 100⟩
      rfl (by norm_num)]
    norm_num [Prod.ext_iff, Movement.mk.injEq, CtrlState.mk.injEq]
  refine ⟨by rw [hs1], ?_⟩
  rw [hs1]
  show (handle_command (1/100) (1/100) "move:500:0:100" { movement := some ⟨1/2, 0, -1⟩, last_movement := (0, -1) }).2.2 = some (0, 1)
  rw [hs2]

/-- Claim C5 (amended): each valid command is evaluated immediately
inside its own `handle_command` call, so for two valid unexpired
commands A then B, the pair of A is driven when A arrives (unless it
equals the currently applied pair) and the pair of B is driven when B
arrives (unless it equals the pair of A). Last-writer-wins holds for the
stored slot: after B is handled, the pending request and AppliedMovement
come from B alone, and the pair of A is never driven again. -/
theorem claim5_last_writer_wins (nowP1 nowE1 nowP2 nowE2 : ℚ) (cmdA cmdB : String)
    (dsA ysA xsA dsB ysB xsB : List Char) (dA yA xA dB yB xB : ℤ) (s : CtrlState)
    (hsA : splitOnColon cmdA.toList = [("move".toList), dsA, ysA, xsA])
    (hdA : pyInt dsA = some dA) (hyA : pyInt ysA = some yA) (hxA : pyInt xsA = some xA)
    (hyA1 : -100 ≤ yA) (hyA2 : yA ≤ 100) (hxA1 : -100 ≤ xA) (hxA2 : xA ≤ 100)
    (hsB : splitOnColon cmdB.toList = [("move".toList), dsB, ysB, xsB])
    (hdB : pyInt dsB = some dB) (hyB : pyInt ysB = some yB) (hxB : pyInt xsB = some xB)
    (hyB1 : -100 ≤ yB) (hyB2 : yB ≤ 100) (hxB1 : -100 ≤ xB) (hxB2 : xB ≤ 100)
    (hnowA : 0 ≤ nowE1) (hfutA : nowE1 < nowP1 + (dA : ℚ) / 1000)
    (hnowB : 0 ≤ nowE2) (hfutB : nowE2 < nowP2 + (dB : ℚ) / 1000) :
    (handle_command nowP1 nowE1 cmdA s).2.2 =
      (if s.last_movement = ((yA : ℚ) / 100, (xA : ℚ) / 100) then none
       else some ((yA : ℚ) / 100, (xA : ℚ) / 100)) ∧
    (handle_command nowP2 nowE2 cmdB (handle_command nowP1 nowE1 cmdA s).2.1).2.1.movement =
      some ⟨nowP2 + (dB : ℚ) / 1000, (yB : ℚ) / 100, (xB : ℚ) / 100⟩ ∧
    (handle_command nowP2 nowE2 cmdB (handle_command nowP1 nowE1 cmdA s).2.1).2.1.last_movement =
      ((yB : ℚ) / 100, (xB : ℚ) / 100) ∧
    (handle_command nowP2 nowE2 cmdB (handle_command nowP1 nowE1 cmdA s).2.1).2.2 =
      (if ((yA : ℚ) / 100, (xA : ℚ) / 100) = ((yB : ℚ) / 100, (xB : ℚ) / 100) then none
       else some ((yB : ℚ) / 100, (xB : ℚ) / 100)) := by
  rw [handle_move_spec nowP1 nowE1 cmdA dsA ysA xsA dA yA xA s hsA hdA hyA hxA
    hyA1 hyA2 hxA1 hxA2 (le_trans hnowA hfutA.le)]
  rw [evaluate_fresh nowE1 _ ⟨nowP1 + (dA : ℚ) / 1000, (yA : ℚ) / 100, (xA : ℚ) / 100⟩
    rfl hfutA]
  rw [handle_move_spec nowP2 nowE2 cmdB dsB ysB xsB dB yB xB _ hsB hdB hyB hxB
    hyB1 hyB2 hxB1 hxB2 (le_trans hnowB hfutB.le)]
  rw [evaluate_fresh nowE2 _ ⟨nowP2 + (dB : ℚ) / 1000, (yB : ℚ) / 100, (xB : ℚ) / 100⟩
    rfl hfutB]
  exact ⟨rfl, rfl, rfl, rfl⟩

/-- Concrete run of C5 (amended): the scenario pair of commands, 10 ms
apart; the driver sees the pair of A, (0, -1), and then the pair of B,
(0, 1), and afterwards only the request of B is pending. -/
theorem claim5_last_writer_wins_witness :
    (handle_command 0 0 "move:500:0:-100" ctrlInit).2.2 =
      (if ctrlInit.last_movement = (((0 : ℤ) : ℚ) / 100, ((-100 : ℤ) : ℚ) / 100) then none
       else some (((0 : ℤ) : ℚ) / 100, ((-100 : ℤ) : ℚ) / 100)) ∧
    (handle_command (1/100) (1/100) "move:500:0:100"
        (handle_command 0 0 "move:500:0:-100" ctrlInit).2.1).2.1.movement =
      some ⟨1/100 + ((500 : ℤ) : ℚ) / 1000, ((0 : ℤ) : ℚ) / 100, ((100 : ℤ) : ℚ) / 100⟩ ∧
    (handle_command (1/100) (1/100) "move:500:0:100"
        (handle_command 0 0 "move:500:0:-100" ctrlInit).2.1).2.1.last_movement =
      (((0 : ℤ) : ℚ) / 100, ((100 : ℤ) : ℚ) / 100) ∧
    (handle_command (1/100) (1/100) "move:500:0:100"
        (handle_command 0 0 "move:500:0:-100" ctrlInit).2.1).2.2 =
      (if (((0 : ℤ) : ℚ) / 100, ((-100 : ℤ) : ℚ) / 100) =
          (((0 : ℤ) : ℚ) / 100, ((100 : ℤ) : ℚ) / 100) then none
       else some (((0 : ℤ) : ℚ) / 100, ((100 : ℤ) : ℚ) / 100)) :=
  claim5_last_writer_wins 0 0 (1/100) (1/100) "move:500:0:-100" "move:500:0:100"
    ("500".toList) ("0".toList) ("-100".toList) ("500".toList) ("0".toList) ("100".toList)
    500 0 (-100) 500 0 100 ctrlInit
    (by decide) (by decide) (by decide) (by decide) (by decide) (by decide) (by decide)
    (by decide) (by decide) (by decide) (by decide) (by decide) (by decide) (by decide)
    (by decide) (by decide) (by norm_num) (by norm_num) (by norm_num) (by norm_num)

/-- Counterexample to claim C7 as stated: a percentage of 101 does not
produce a graceful Rejected result — "move:100:101:0" makes
`assert -1 <= y <= 1` fail, raising AssertionError out of the handler
(the state is nevertheless unchanged). -/
theorem claim7_counterexample :
    (handle_command 0 0 "move:100:101:0" ctrlInit).1 = .assertionFailed ∧
    (handle_command 0 0 "move:100:101:0" ctrlInit).1 ≠ .unknownCommand ∧
    (handle_command 0 0 "move:100:101:0" ctrlInit).2 = (ctrlInit, none) := by
  have hs : splitOnColon ("move:100:101:0".toList) =
      [("move".toList), ("100".toList), ("101".toList), ("0".toList)] := by decide
  have hd : pyInt ("100".toList) = some 100 := by decide
  have hy : pyInt ("101".toList) = some 101 := by decide
  have hx : pyInt ("0".toList) = some 0 := by decide
  have hres : handle_command 0 0 "move:100:101:0" ctrlInit =
      (.assertionFailed, ctrlInit, none) := by
    simp only [handle_command, hs, hd, hy, hx]
    rw [if_pos trivial, set_movement,
      if_neg (not_not_intro (by norm_num : (0 : ℚ) + ((100 : ℤ) : ℚ) / 1000 ≥ 0)),
      if_pos (pct_out_high 101 (by decide))]
  rw [hres]
  exact ⟨rfl, by decide, rfl⟩

/-- Claim C7 (amended): percentage fields of exactly -100, 0, 100
normalize to -1, 0, 1 and are accepted; 101 or -101 make an assert fail,
so the command ends in an AssertionError (an exception that propagates
out of the handler, not a graceful rejection) — but in that case no
request is installed and the state is unchanged. -/
theorem claim7_boundary_percentages (nowParse nowEval : ℚ) (cmd : String)
    (ds ys xs : List Char) (d yv xv : ℤ) (s : CtrlState)
    (hsplit : splitOnColon cmd.toList = [("move".toList), ds, ys, xs])
    (hd : pyInt ds = some d) (hy : pyInt ys = some yv) (hx : pyInt xs = some xv)
    (ht : 0 ≤ nowParse + (d : ℚ) / 1000) :
    (((-100 : ℤ) : ℚ) / 100 = -1 ∧ ((0 : ℤ) : ℚ) / 100 = 0 ∧ ((100 : ℤ) : ℚ) / 100 = 1) ∧
    ((yv = -100 ∨ yv = 0 ∨ yv = 100) → (xv = -100 ∨ xv = 0 ∨ xv = 100) →
      (handle_command nowParse nowEval cmd s).1 = .ok) ∧
    ((yv = 101 ∨ yv = -101 ∨ xv = 101 ∨ xv = -101) →
      (handle_command nowParse nowEval cmd s).1 = .assertionFailed ∧
      (handle_command nowParse nowEval cmd s).2 = (s, none)) := by
  refine ⟨by norm_num, ?_, ?_⟩
  · intro hyv hxv
    have hy1 : -100 ≤ yv := by rcases hyv with h | h | h <;> simp [h]
    have hy2 : yv ≤ 100 := by rcases hyv with h | h | h <;> simp [h]
    have hx1 : -100 ≤ xv := by rcases hxv with h | h | h <;> simp [h]
    have hx2 : xv ≤ 100 := by rcases hxv with h | h | h <;> simp [h]
    rw [handle_move_spec nowParse nowEval cmd ds ys xs d yv xv s hsplit hd hy hx
      hy1 hy2 hx1 hx2 ht]
  · intro hout
    have hres : (handle_command nowParse nowEval cmd s) = (.assertionFailed, s, none) := by
      simp only [handle_command, hsplit, hd, hy, hx]
      rw [if_pos trivial, set_movement, if_neg (not_not_intro ht)]
      rcases hout with h | h | h | h
      · rw [if_pos (pct_out_high yv (by omega))]
      · rw [if_pos (pct_out_low yv (by omega))]
      · by_cases hyin : ¬(-1 ≤ (yv : ℚ) / 100 ∧ (yv : ℚ) / 100 ≤ 1)
        · rw [if_pos hyin]
        · rw [if_neg hyin, if_pos (pct_out_high xv (by omega))]
      · by_cases hyin : ¬(-1 ≤ (yv : ℚ) / 100 ∧ (yv : ℚ) / 100 ≤ 1)
        · rw [if_pos hyin]
        · rw [if_neg hyin, if_pos (pct_out_low xv (by omega))]
    rw [hres]
    exact ⟨rfl, rfl⟩

/-- Concrete runs of C7 (amended): "move:100:-100:100" is accepted with
boundary percentages; "move:100:101:0" ends in AssertionError with no
state change. -/
theorem claim7_boundary_percentages_witness :
    (handle_command 0 0 "move:100:-100:100" ctrlInit).1 = .ok ∧
    ((handle_command 0 0 "move:100:101:0" ctrlInit).1 = .assertionFailed ∧
      (handle_command 0 0 "move:100:101:0" ctrlInit).2 = (ctrlInit, none)) :=
  ⟨(claim7_boundary_percentages 0 0 "move:100:-100:100" ("100".toList) ("-100".toList)
      ("100".toList) 100 (-100) 100 ctrlInit (by decide) (by decide) (by decide) (by decide)
      (by norm_num)).2.1 (Or.inl rfl) (Or.inr (Or.inr rfl)),
   (claim7_boundary_percentages 0 0 "move:100:101:0" ("100".toList) ("101".toList)
      ("0".toList) 100 101 0 ctrlInit (by decide) (by decide) (by decide) (by decide)
      (by norm_num)).2.2 (Or.inl rfl)⟩
